import Mathlib

/-!
Verification of the render-job orchestrator and multi-view capture pipeline
of the puppeteer-glb-renderer repository.

The development shallowly embeds the two core modules:

* `JobQueue` (src/unnamed/part_011): an in-memory job registry (`jobs` map),
  a FIFO array `queue`, an `activeJobs` counter bounded by `concurrency`,
  with operations `addJob`, `processQueue`/`processJob` (dispatch and
  terminal transition), and `cancelJob`.
* `PuppeteerRenderer` (src/unnamed/part_013): `expandViews`, the still-image
  capture loop `renderImages`, the turntable loops `renderVideo` /
  `renderGIF` with their temp frame directory, and the result records they
  assemble.

Modelling conventions:

* JavaScript numbers that carry durations, frame rates and angles are
  embedded as rationals (`ℚ`); all inputs used in concrete theorems are
  chosen so that the float computation in the source and the exact rational
  computation agree.
* Timestamps (`new Date()`) are abstract naturals supplied to each
  transition.
* Fallible external calls (the browser page driver, ffmpeg) are oracles of
  type `Except String _` passed as parameters.
* Job ids (`uuidv4()`) are embedded as consecutive naturals handed out by
  the state; only freshness and ordering of ids matter to the claims.
-/

/-- Job lifecycle states (src/unnamed/part_011, `status` field values). -/
inductive JobStatus where
  | pending
  | processing
  | completed
  | failed
  | cancelled
deriving DecidableEq, Repr

/-- One output artifact pushed by the still-image capture loop
(src/unnamed/part_013 lines 194-199: `view`, output file name, byte size). -/
structure Artifact where
  view : String
  fileName : String
  size : Nat
deriving DecidableEq, Repr

/-- The result object assembled by `renderGLB` on success
(src/unnamed/part_013 lines 141-146): `success: true` and the `results`
array.  The record carries no per-view error collection: failed views are
only logged to the console (line 204). -/
structure RenderResult where
  success : Bool
  results : List Artifact
deriving DecidableEq, Repr

/-- The per-view errors recorded in a `renderGLB` result.  The result object
(src/unnamed/part_013 lines 141-146) has fields `success`, `results`,
`duration`, `options` and nothing else, so the list of per-view errors it
records is empty for every result. -/
def recordedViewErrors (_r : RenderResult) : List String := []

/-- A job record as created by `JobQueue.addJob`
(src/unnamed/part_011 lines 28-38).  The `id` lives in the registry key and
the job's payload (`type`, `fileName`, `options`) is irrelevant to the
claims, so both are kept outside the record. -/
structure Job where
  status : JobStatus
  createdAt : Nat
  startedAt : Option Nat
  completedAt : Option Nat
  progress : Nat
  result : Option RenderResult
  error : Option String
deriving DecidableEq, Repr

/-- The fresh job record built by `addJob` (src/unnamed/part_011
lines 28-38): `status: 'pending'`, `progress: 0`, all of `startedAt`,
`completedAt`, `result`, `error` unset. -/
def mkJob (t : Nat) : Job :=
  { status := .pending
    createdAt := t
    startedAt := none
    completedAt := none
    progress := 0
    result := none
    error := none }

/-- The `pending → processing` update performed by `processJob`
(src/unnamed/part_011 lines 104-105). -/
def startJob (j : Job) (t : Nat) : Job :=
  { j with status := .processing, startedAt := some t }

/-- The progress callback threaded into the renderer
(src/unnamed/part_011 line 152): `job.progress = Math.min(progress, 95)`. -/
def applyProgress (j : Job) (p : Nat) : Job :=
  { j with progress := min p 95 }

/-- The terminal transition of `processJob` (src/unnamed/part_011
lines 122-139): on success set `completed`, `completedAt`, `progress = 100`
and `result`; on failure set `failed`, `completedAt` and `error`.  The
failure branch touches neither `progress` nor `result`. -/
def finishJob (j : Job) (t : Nat) : Except String RenderResult → Job
  | .ok r =>
      { j with status := .completed, completedAt := some t,
               progress := 100, result := some r }
  | .error m =>
      { j with status := .failed, completedAt := some t, error := some m }

/-- Embedding of `PuppeteerRenderer.expandViews` (src/unnamed/part_013 lines 354-359):
a list containing the sentinel `all` is replaced wholesale by the fixed
list `['front', 'side', 'top', 'perspective', 'back', 'bottom']`; any other
list is returned unchanged. -/
def expandViews (views : List String) : List String :=
  if views.contains "all" then
    ["front", "side", "top", "perspective", "back", "bottom"]
  else
    views

/-- Boolean success test on an oracle outcome. -/
def isOkB {α : Type} : Except String α → Bool
  | .ok _ => true
  | .error _ => false

/-- The body of the still-image capture loop (src/unnamed/part_013
lines 164-206): for each view, position the camera and capture (one fallible
driver call `drv`); on success push the artifact, on failure log and
continue with the next view.  Nothing is recorded for a failed view. -/
def renderImagesLoop (drv : String → Except String Artifact) :
    List String → List Artifact
  | [] => []
  | v :: rest =>
      match drv v with
      | .ok a => a :: renderImagesLoop drv rest
      | .error _ => renderImagesLoop drv rest

/-- Embedding of `PuppeteerRenderer.renderImages` (src/unnamed/part_013 lines 158-209):
expand the requested views, then run the capture loop, returning only the
successful artifacts in view order. -/
def renderImages (drv : String → Except String Artifact)
    (views : List String) : List Artifact :=
  renderImagesLoop drv (expandViews views)

/-- The still-mode result as assembled by `renderGLB`
(src/unnamed/part_013 lines 132-146): `success: true` with the artifacts of
the image loop, regardless of how many views failed. -/
def mkStillResult (drv : String → Except String Artifact)
    (views : List String) : RenderResult :=
  { success := true, results := renderImages drv views }

theorem renderImagesLoop_length (drv : String → Except String Artifact) :
    ∀ vs : List String,
      (renderImagesLoop drv vs).length = vs.countP (fun v => isOkB (drv v))
  | [] => rfl
  | v :: rest => by
      unfold renderImagesLoop
      rcases h : drv v with a | e <;>
        simp [List.countP_cons, isOkB, h, renderImagesLoop_length drv rest]

theorem countP_ok_add_fail (drv : String → Except String Artifact) :
    ∀ vs : List String,
      vs.countP (fun v => isOkB (drv v)) +
        vs.countP (fun v => !(isOkB (drv v))) = vs.length
  | [] => rfl
  | v :: rest => by
      rcases h : drv v with a | e <;>
        simp [List.countP_cons, isOkB, h, ← countP_ok_add_fail drv rest] <;>
        omega

/-- Render options relevant to mode selection and the animation loops
(src/src/server.js lines 163-193 builds this record; `format`, `turntable`,
`views`, `duration`, `fps` drive the branches of `renderGLB`). -/
structure RenderOptions where
  format : String
  turntable : Bool
  views : List String
  duration : ℚ
  fps : ℚ
deriving DecidableEq, Repr

/-- The video-mode test of `renderGLB` (src/unnamed/part_013 line 124):
`options.format === 'mp4' || options.turntable`. -/
def isVideoMode (o : RenderOptions) : Bool :=
  o.format == "mp4" || o.turntable

/-- The GIF-mode test of `renderGLB` (src/unnamed/part_013 line 128):
`options.format === 'gif' || options.views.includes('animated')`. -/
def isGifMode (o : RenderOptions) : Bool :=
  o.format == "gif" || o.views.contains "animated"

/-- Embedding of `PuppeteerRenderer.renderGLB` (src/unnamed/part_013 lines 78-156),
specialised to what determines the job outcome.  `pre` is the oracle for
everything before mode dispatch (page creation, viewer navigation, model
load, render settings — lines 92-121): if any of those throws, `renderGLB`
rethrows.  `nonStill` is the oracle for the video/GIF branches (lines
124-131), whose errors also propagate.  In the still branch (lines 132-136)
the image loop runs and the result is always assembled with
`success : true`, whatever the per-view outcomes. -/
def renderGLB (pre : Except String Unit)
    (nonStill : Except String RenderResult)
    (drv : String → Except String Artifact)
    (o : RenderOptions) : Except String RenderResult :=
  match pre with
  | .error e => .error e
  | .ok _ =>
      if isVideoMode o || isGifMode o then nonStill
      else .ok (mkStillResult drv o.views)

/-- End-to-end job outcome for a freshly submitted render job: `addJob`
builds the record, `processJob` marks it processing and then applies the
terminal transition to the outcome of `renderGLB`
(src/unnamed/part_011 lines 97-145 and 147-171). -/
def jobAfterRender (t0 t1 t2 : Nat) (pre : Except String Unit)
    (nonStill : Except String RenderResult)
    (drv : String → Except String Artifact)
    (o : RenderOptions) : Job :=
  finishJob (startJob (mkJob t0) t1) t2 (renderGLB pre nonStill drv o)

/-- The `pending → cancelled` record update performed inside
`JobQueue.cancelJob` (src/unnamed/part_011 lines 254-255): set status
`cancelled` and `completedAt`; `progress`, `result` and `error` are left
untouched. -/
def cancelRecord (j : Job) (t : Nat) : Job :=
  { j with status := .cancelled, completedAt := some t }

/-- A concrete still-mode driver that fails exactly on the `left` and
`right` views and succeeds elsewhere. -/
def failTwoDrv : String → Except String Artifact :=
  fun v =>
    if v == "left" || v == "right" then .error "forced failure"
    else .ok { view := v, fileName := v ++ ".png", size := 1 }

/-- A concrete still-mode driver that fails on every view. -/
def allFailDrv : String → Except String Artifact :=
  fun _ => .error "forced failure"

/-- A six-view request without the `all` sentinel. -/
def sixViews : List String :=
  ["front", "back", "left", "right", "top", "bottom"]

/-- Concrete still-mode render options (`format: 'png'`, no turntable). -/
def stillOpts : RenderOptions :=
  { format := "png", turntable := false, views := ["front", "back"],
    duration := 5, fps := 30 }

/-- C4 (counterexample): `expandViews` on a list containing `all` does not
produce the list `[front, back, left, right, top, bottom]` the claim
states; the source (src/unnamed/part_013 line 356) hard-codes
`[front, side, top, perspective, back, bottom]`. -/
theorem expandViews_all_counterexample :
    expandViews ["all"] ≠ ["front", "back", "left", "right", "top", "bottom"] := by
  decide

/-- C4 (amended): expansion of every list containing the sentinel `all`
(anywhere in the list) replaces the whole list with exactly the fixed list
`[front, side, top, perspective, back, bottom]` in that order; a list
without `all` passes through unchanged; expansion is total, so it never
fails on unknown names. -/
theorem expandViews_spec :
    (∀ vs : List String, vs.contains "all" = true →
      expandViews vs =
        ["front", "side", "top", "perspective", "back", "bottom"]) ∧
    ∀ vs : List String, vs.contains "all" = false → expandViews vs = vs := by
  constructor
  · intro vs h
    unfold expandViews
    rw [h]
    simp
  · intro vs h
    unfold expandViews
    rw [h]
    simp

/-- C4 (witness): `expandViews ["front", "all"]` — with the sentinel in
second position — is replaced wholesale by the canonical list, and
`expandViews ["front", "custom"]` passes through unchanged, by the two
parts of `expandViews_spec`. -/
theorem expandViews_spec_witness :
    expandViews ["front", "all"] =
      ["front", "side", "top", "perspective", "back", "bottom"] ∧
    expandViews ["front", "custom"] = ["front", "custom"] :=
  ⟨expandViews_spec.1 ["front", "all"] (by decide),
   expandViews_spec.2 ["front", "custom"] (by decide)⟩

/-- C1 (counterexample): with 6 requested views of which 2 are forced to
fail, the capture loop yields 4 artifacts, but the result carries 0 — not
2 — recorded per-view errors: the catch branch of the loop
(src/unnamed/part_013 lines 203-205) only logs, and the result object has
no error collection. -/
theorem renderImages_errors_counterexample :
    (renderImages failTwoDrv sixViews).length = 4 ∧
    (recordedViewErrors (mkStillResult failTwoDrv sixViews)).length ≠ 2 := by
  decide

/-- C1 (amended): in still mode, a per-view failure is caught and the loop
continues, so with N views of which K fail (1 ≤ K < N) the job's result
holds exactly N − K artifacts; the failed views are only logged and the
result records no per-view errors. -/
theorem renderImages_partial_failure
    (drv : String → Except String Artifact) (views : List String)
    (N K : Nat) (hN : (expandViews views).length = N)
    (hK : (expandViews views).countP (fun v => !(isOkB (drv v))) = K)
    (_hK1 : 1 ≤ K) (hKN : K < N) :
    (renderImages drv views).length = N - K ∧
    recordedViewErrors (mkStillResult drv views) = [] := by
  refine ⟨?_, rfl⟩
  have h1 := renderImagesLoop_length drv (expandViews views)
  have h2 := countP_ok_add_fail drv (expandViews views)
  unfold renderImages
  omega

/-- C1 (witness): 6 views with 2 forced failures yield 4 artifacts and no
recorded errors. -/
theorem renderImages_partial_failure_witness :
    (renderImages failTwoDrv sixViews).length = 6 - 2 ∧
    recordedViewErrors (mkStillResult failTwoDrv sixViews) = [] :=
  renderImages_partial_failure failTwoDrv sixViews 6 2
    (by decide) (by decide) (by decide) (by decide)

/-- C2 (counterexample): a still-mode job in which every view capture fails
(zero successful views) does not transition to `failed`: `renderImages`
swallows each failure, `renderGLB` returns `success: true` with an empty
artifact list, and `processJob` marks the job `completed`. -/
theorem zero_views_not_failed_counterexample :
    renderImages allFailDrv stillOpts.views = [] ∧
    (jobAfterRender 0 1 2 (.ok ()) (.error "unused") allFailDrv stillOpts).status
      = .completed ∧
    (jobAfterRender 0 1 2 (.ok ()) (.error "unused") allFailDrv stillOpts).status
      ≠ .failed := by
  decide

/-- C2 (amended): in still mode the terminal status is independent of the
per-view outcomes: the job fails exactly when the pipeline before the view
loop (page setup / model load) raises, and completes exactly when it does
not — even when zero views succeed. -/
theorem still_job_status_spec (t0 t1 t2 : Nat) (pre : Except String Unit)
    (nonStill : Except String RenderResult)
    (drv : String → Except String Artifact) (o : RenderOptions)
    (hv : isVideoMode o = false) (hg : isGifMode o = false) :
    ((jobAfterRender t0 t1 t2 pre nonStill drv o).status = .failed ↔
      isOkB pre = false) ∧
    ((jobAfterRender t0 t1 t2 pre nonStill drv o).status = .completed ↔
      isOkB pre = true) := by
  rcases pre with u | e <;>
    simp [jobAfterRender, renderGLB, hv, hg, isOkB, finishJob, startJob, mkJob]

/-- C2 (witness): with a successful pipeline and an all-failing driver the
job completes. -/
theorem still_job_status_spec_witness :
    (jobAfterRender 0 1 2 (.ok ()) (.error "unused") allFailDrv stillOpts).status
      = .completed :=
  (still_job_status_spec 0 1 2 (.ok ()) (.error "unused") allFailDrv stillOpts
    (by decide) (by decide)).2.mpr rfl

/-- C3 (counterexample): a cancelled job is terminal yet populates neither
`result` nor `error` (refuting "exactly one is populated"), and a failed
job keeps its pre-failure progress instead of 100 (refuting
"`progress = 100` iff terminal status is `completed` or `failed`"). -/
theorem terminal_fields_counterexample :
    (cancelRecord (mkJob 0) 5).status = .cancelled ∧
    (cancelRecord (mkJob 0) 5).result = none ∧
    (cancelRecord (mkJob 0) 5).error = none ∧
    (finishJob (startJob (mkJob 0) 1) 2 (.error "boom")).status = .failed ∧
    (finishJob (startJob (mkJob 0) 1) 2 (.error "boom")).progress ≠ 100 := by
  decide

/-- C3 (amended): for a job whose in-flight fields are as maintained by the
queue (progress capped at 95 by the progress callback, `result`/`error`
unset before the terminal transition): a `completed` or `failed` outcome
populates exactly one of `result`/`error`; `progress = 100` holds iff the
terminal status is `completed` (the failure path leaves progress below
100); and cancellation sets `completedAt` while populating neither
`result` nor `error`. -/
theorem terminal_fields_spec (j : Job) (t : Nat)
    (o : Except String RenderResult) (hp : j.progress ≤ 95)
    (hr : j.result = none) (he : j.error = none) :
    (((finishJob j t o).status = .completed ∨
      (finishJob j t o).status = .failed) →
      (((finishJob j t o).result.isSome ∧ (finishJob j t o).error = none) ∨
       ((finishJob j t o).result = none ∧ (finishJob j t o).error.isSome))) ∧
    ((finishJob j t o).progress = 100 ↔ (finishJob j t o).status = .completed) ∧
    (∀ tc : Nat, (cancelRecord j tc).status = .cancelled ∧
      (cancelRecord j tc).result = none ∧ (cancelRecord j tc).error = none ∧
      (cancelRecord j tc).completedAt = some tc) := by
  rcases o with m | r
  · simp [finishJob, cancelRecord, he, hr]
    omega
  · simp [finishJob, cancelRecord, he, hr]

/-- C3 (witness): instantiation at a fresh job failing with progress 0. -/
theorem terminal_fields_spec_witness :
    (finishJob (startJob (mkJob 0) 1) 2 (.error "boom")).progress = 100 ↔
    (finishJob (startJob (mkJob 0) 1) 2 (.error "boom")).status = .completed :=
  (terminal_fields_spec (startJob (mkJob 0) 1) 2 (.error "boom")
    (by decide) rfl rfl).2.1

/-- The number of iterations of the JS capture loop
`for (let frame = 0; frame < totalFrames; frame++)` where
`totalFrames = options.duration * options.fps` with no rounding
(src/unnamed/part_013 lines 218 and 224): the number of naturals strictly
below `d * f`, i.e. `⌈d * f⌉₊`. -/
def videoFrameCount (d f : ℚ) : ℕ := ⌈d * f⌉₊

/-- Justification of `videoFrameCount`: a frame index is iterated exactly
when it is strictly below the (possibly fractional) `totalFrames`. -/
theorem videoFrameCount_iterates (d f : ℚ) (i : ℕ) :
    i < videoFrameCount d f ↔ (i : ℚ) < d * f := by
  unfold videoFrameCount
  exact Nat.lt_ceil

/-- The rotation angles produced by the turntable capture loop
(src/unnamed/part_013 lines 219 and 224-225): `angleStep = 360 /
totalFrames` and `angle = frame * angleStep` for each iterated frame. -/
def videoFrames (d f : ℚ) : List ℚ :=
  (List.range (videoFrameCount d f)).map
    (fun (i : ℕ) => (i : ℚ) * (360 / (d * f)))

/-- The job-scoped temporary frame directory as an abstract file-system
state: whether the directory exists and which frame files it holds. -/
structure TempFS where
  dirExists : Bool
  frames : List Nat
deriving DecidableEq, Repr

/-- Embedding of `fs.ensureDir(frameDir)` (src/unnamed/part_013 lines 215 and 290):
a fresh, empty, existing directory. -/
def ensureDir : TempFS := { dirExists := true, frames := [] }

/-- Embedding of `fs.writeFile(framePath, screenshot)` (src/unnamed/part_013 lines 241
and 312): adds one frame file. -/
def writeFrame (fs : TempFS) (i : Nat) : TempFS :=
  { fs with frames := fs.frames ++ [i] }

/-- Embedding of `fs.remove(frameDir)` (src/unnamed/part_013 lines 256, 274, 321, 338):
the directory and its contents are gone. -/
def removeDir (_fs : TempFS) : TempFS := { dirExists := false, frames := [] }

/-- The frame-capture loop of `renderVideo`/`renderGIF`
(src/unnamed/part_013 lines 224-247 and 297-313): for each frame index
rotate the camera and capture (one fallible call `cap`), writing the frame
file on success; the first failure aborts the loop and propagates. -/
def captureFrames (cap : Nat → Except String Unit) :
    TempFS → List Nat → Except String Unit × TempFS
  | fs, [] => (.ok (), fs)
  | fs, i :: rest =>
      match cap i with
      | .ok _ => captureFrames cap (writeFrame fs i) rest
      | .error e => (.error e, fs)

/-- The result record returned by `renderVideo`
(src/unnamed/part_013 lines 262-270): it reports the requested duration
and fps and the computed (unrounded) `totalFrames`. -/
structure VideoResult where
  duration : ℚ
  fps : ℚ
  frames : ℚ
deriving DecidableEq, Repr

/-- The GIF clamp on duration (src/unnamed/part_013 line 285):
`Math.min(options.duration, 3)`. -/
def gifDuration (d : ℚ) : ℚ := min d 3

/-- The GIF clamp on frame rate (src/unnamed/part_013 line 286):
`Math.min(options.fps, 15)`. -/
def gifFps (f : ℚ) : ℚ := min f 15

/-- GIF loop iteration count (src/unnamed/part_013 lines 293 and 297):
`totalFrames = gifOptions.duration * gifOptions.fps` over the clamped
options, iterated as in `videoFrameCount`. -/
def gifFrameCount (d f : ℚ) : ℕ := ⌈gifDuration d * gifFps f⌉₊

/-- The result record returned by `renderGIF`
(src/unnamed/part_013 lines 327-335): duration and fps are the clamped
`gifOptions` values. -/
structure GifResult where
  duration : ℚ
  fps : ℚ
  frames : ℚ
deriving DecidableEq, Repr

/-- Embedding of `PuppeteerRenderer.renderVideo` (src/unnamed/part_013 lines 211-277):
ensure the temp frame directory, capture all frames, then encode (`enc`
models `convertFramesToVideo`) and remove the directory; on a capture or
encoder error the catch block removes the directory and rethrows.  The
returned `TempFS` is the state of the temp directory when the function
exits. -/
def renderVideoRun (cap : Nat → Except String Unit) (enc : Except String Unit)
    (d f : ℚ) : Except String VideoResult × TempFS :=
  match captureFrames cap ensureDir (List.range (videoFrameCount d f)) with
  | (.error e, fs1) => (.error e, removeDir fs1)
  | (.ok _, fs1) =>
      match enc with
      | .error e => (.error e, removeDir fs1)
      | .ok _ =>
          (.ok { duration := d, fps := f, frames := d * f }, removeDir fs1)

/-- Embedding of `PuppeteerRenderer.renderGIF` (src/unnamed/part_013 lines 279-341):
as `renderVideoRun` but over the clamped `gifOptions`, with
`convertFramesToGIF` as the encoder oracle. -/
def renderGIFRun (cap : Nat → Except String Unit) (enc : Except String Unit)
    (d f : ℚ) : Except String GifResult × TempFS :=
  match captureFrames cap ensureDir (List.range (gifFrameCount d f)) with
  | (.error e, fs1) => (.error e, removeDir fs1)
  | (.ok _, fs1) =>
      match enc with
      | .error e => (.error e, removeDir fs1)
      | .ok _ =>
          (.ok { duration := gifDuration d, fps := gifFps f,
                 frames := gifDuration d * gifFps f }, removeDir fs1)

/-- C5 (counterexample): for `duration = 2.1, fps = 1` the capture loop
runs 3 frames (indices 0, 1, 2 are all below `totalFrames = 2.1`), not
`round(2.1 * 1) = 2` as the claim computes. -/
theorem turntable_round_counterexample :
    (videoFrames (21 / 10) 1).length = 3 ∧
    round ((21 / 10 : ℚ) * 1) = 2 := by
  constructor
  · unfold videoFrames
    rw [List.length_map, List.length_range]
    unfold videoFrameCount
    rw [Nat.ceil_eq_iff (by norm_num)]
    norm_num
  · norm_num [round_eq]

/-- C5 (amended): the capture loop uses `totalFrames = duration * fps`
with no rounding; whenever `duration * fps` is a natural number `n`, the
loop generates exactly `n` frames, frame `i` at angle `i * (360 / n)`. -/
theorem turntable_frames_spec (d f : ℚ) (n : ℕ) (h : d * f = (n : ℚ)) :
    videoFrames d f =
      (List.range n).map (fun (i : ℕ) => (i : ℚ) * (360 / (n : ℚ))) := by
  unfold videoFrames videoFrameCount
  rw [h, Nat.ceil_natCast]

/-- C5 (witness): `duration = 2, fps = 10` yields exactly 20 frames at
angles 0, 18, 36, …, 342. -/
theorem turntable_frames_spec_witness :
    videoFrames 2 10 = [0, 18, 36, 54, 72, 90, 108, 126, 144, 162, 180,
      198, 216, 234, 252, 270, 288, 306, 324, 342] := by
  rw [turntable_frames_spec 2 10 20 (by norm_num),
    show List.range 20 = [0, 1, 2, 3, 4, 5, 6, 7, 8, 9, 10, 11, 12, 13, 14,
      15, 16, 17, 18, 19] from rfl]
  simp only [List.map]
  norm_num

/-- C8: on every exit path of `renderVideo` and `renderGIF` — successful
encode, encoder failure, or a capture failure at any frame — the job-scoped
temporary frame directory has been removed when the function exits. -/
theorem temp_dir_removed (cap : Nat → Except String Unit)
    (enc : Except String Unit) (d f : ℚ) :
    (renderVideoRun cap enc d f).2.dirExists = false ∧
    (renderGIFRun cap enc d f).2.dirExists = false := by
  constructor
  · unfold renderVideoRun
    rcases h : captureFrames cap ensureDir (List.range (videoFrameCount d f))
      with ⟨o, fs1⟩
    rcases o with e | u <;> rcases enc with e2 | u2 <;> simp [removeDir]
  · unfold renderGIFRun
    rcases h : captureFrames cap ensureDir (List.range (gifFrameCount d f))
      with ⟨o, fs1⟩
    rcases o with e | u <;> rcases enc with e2 | u2 <;> simp [removeDir]

/-- C10 (counterexample): the clamps do not bound the frame count for every
requested duration and fps: with `duration = -10, fps = -10` (neither is
rejected upstream; `Math.min` leaves both at −10), `totalFrames =
(-10) * (-10) = 100`, so the GIF loop captures 100 frames, exceeding 45. -/
theorem gif_frame_bound_counterexample :
    45 < gifFrameCount (-10) (-10) := by
  unfold gifFrameCount gifDuration gifFps
  rw [show min (-10 : ℚ) 3 = -10 by norm_num,
    show min (-10 : ℚ) 15 = -10 by norm_num,
    show ((-10 : ℚ) * -10) = ((100 : ℕ) : ℚ) by norm_num,
    Nat.ceil_natCast]
  norm_num

/-- C10 (amended): for nonnegative requested duration and fps, the GIF
loop captures at most `min(d,3) * min(f,15) ≤ 45` frames, and a successful
GIF result reports the clamped duration and fps. -/
theorem gif_clamp_spec (d f : ℚ) (_hd : 0 ≤ d) (hf : 0 ≤ f) :
    gifFrameCount d f ≤ 45 ∧
    ∀ (cap : Nat → Except String Unit) (enc : Except String Unit)
      (r : GifResult) (fs : TempFS),
      renderGIFRun cap enc d f = (.ok r, fs) →
      r.duration = min d 3 ∧ r.fps = min f 15 := by
  constructor
  · unfold gifFrameCount gifDuration gifFps
    have h1 : min d 3 * min f 15 ≤ 3 * 15 :=
      mul_le_mul (min_le_right d 3) (min_le_right f 15)
        (le_min hf (by norm_num)) (by norm_num)
    have h2 : (⌈min d 3 * min f 15⌉₊ : ℕ) ≤ ⌈((45 : ℕ) : ℚ)⌉₊ :=
      Nat.ceil_le_ceil (by push_cast; linarith)
    simpa [Nat.ceil_natCast] using h2
  · intro cap enc r fs h
    unfold renderGIFRun at h
    rcases hc : captureFrames cap ensureDir (List.range (gifFrameCount d f))
      with ⟨o, fs1⟩
    rw [hc] at h
    rcases o with e | u <;> rcases enc with e2 | u2 <;> simp_all
    rcases h with ⟨h1, h2⟩
    simp [← h1, gifDuration, gifFps]

/-- C10 (witness): at requested `duration = 100, fps = 100` the frame
bound holds. -/
theorem gif_clamp_spec_witness :
    gifFrameCount 100 100 ≤ 45 :=
  (gif_clamp_spec 100 100 (by norm_num) (by norm_num)).1

/-- The `JobQueue` state (src/unnamed/part_011 lines 5-13): the job
registry `jobs` (an insertion-ordered association list mirroring the
`Map`), the FIFO `queue` of pending job ids, the `activeJobs` counter and
the configured `concurrency` limit.  `nextId` models the fresh-id supply
(`uuidv4()` in the source): ids are handed out in submission order, so a
smaller id means an earlier submission. -/
structure QueueState where
  jobs : List (Nat × Job)
  queue : List Nat
  activeJobs : Nat
  concurrency : Nat
  nextId : Nat
deriving DecidableEq, Repr

/-- The freshly constructed queue (src/unnamed/part_011 lines 5-13):
empty registry and queue, `activeJobs = 0`, configured concurrency `c`
(the source constructor sets 2). -/
def initState (c : Nat) : QueueState :=
  { jobs := [], queue := [], activeJobs := 0, concurrency := c, nextId := 0 }

/-- Embedding of `this.jobs.get(jobId)` (src/unnamed/part_011 line 55). -/
def lookupJob (s : QueueState) (id : Nat) : Option Job :=
  (s.jobs.find? (fun p => p.1 == id)).map Prod.snd

/-- Embedding of `this.jobs.set(jobId, job)` for an existing key: replace the entry in
place. -/
def setJob (jobs : List (Nat × Job)) (id : Nat) (j : Job) :
    List (Nat × Job) :=
  jobs.map (fun p => if p.1 == id then (p.1, j) else p)

/-- Embedding of `JobQueue.addJob` (src/unnamed/part_011 lines 26-52): create a fresh
pending job, insert it into the registry and push it onto the back of the
queue. -/
def addJobState (s : QueueState) (t : Nat) : QueueState :=
  { s with jobs := s.jobs ++ [(s.nextId, mkJob t)],
           queue := s.queue ++ [s.nextId],
           nextId := s.nextId + 1 }

/-- One dispatch iteration of `processQueue` plus the start of `processJob`
(src/unnamed/part_011 lines 85-88 and 97-107): `queue.shift()` pops the
head, `activeJobs` is incremented, the job becomes `processing` with
`startedAt` set. -/
def dispatchState (s : QueueState) (rest : List Nat) (id t : Nat) :
    QueueState :=
  { s with queue := rest, activeJobs := s.activeJobs + 1,
           jobs := setJob s.jobs id
             (match lookupJob s id with
              | some j => startJob j t
              | none => startJob (mkJob t) t) }

/-- The terminal transition of `processJob` with its `finally` block
(src/unnamed/part_011 lines 122-144): the job becomes `completed` or
`failed` according to the render outcome, and `activeJobs` is decremented
exactly once, on both the success and the failure path. -/
def finishState (s : QueueState) (id t : Nat)
    (o : Except String RenderResult) : QueueState :=
  { s with activeJobs := s.activeJobs - 1,
           jobs := setJob s.jobs id
             (match lookupJob s id with
              | some j => finishJob j t o
              | none => finishJob (mkJob t) t o) }

/-- Embedding of `JobQueue.cancelJob` (src/unnamed/part_011 lines 240-264): unknown id
→ `false`; a `pending` job is spliced out of the queue, marked `cancelled`
with `completedAt`, and `true` is returned; any other status → `false`
with the state untouched. -/
def cancelJob (s : QueueState) (id t : Nat) : QueueState × Bool :=
  match lookupJob s id with
  | none => (s, false)
  | some j =>
      if j.status = .pending then
        ({ s with queue := s.queue.erase id,
                  jobs := setJob s.jobs id (cancelRecord j t) }, true)
      else (s, false)

/-- The scheduler's atomic transitions.  JavaScript's single-threaded event
loop makes each of these blocks atomic: the dispatch guard
`activeJobs < concurrency` (src/unnamed/part_011 line 85), the
`queue.shift()` and the synchronous prefix of `processJob` run without
interleaving. -/
inductive Step : QueueState → QueueState → Prop where
  | add (s : QueueState) (t : Nat) : Step s (addJobState s t)
  | dispatch (s : QueueState) (id : Nat) (rest : List Nat) (t : Nat) :
      s.activeJobs < s.concurrency → s.queue = id :: rest →
      Step s (dispatchState s rest id t)
  | finish (s : QueueState) (id t : Nat) (o : Except String RenderResult) :
      Step s (finishState s id t o)
  | cancel (s : QueueState) (id t : Nat) : Step s (cancelJob s id t).1

/-- States reachable from a freshly constructed queue with concurrency
limit `c`. -/
def Reachable (c : Nat) (s : QueueState) : Prop :=
  Relation.ReflTransGen Step (initState c) s

theorem cancelJob_fields (s : QueueState) (id t : Nat) :
    (cancelJob s id t).1.activeJobs = s.activeJobs ∧
    (cancelJob s id t).1.concurrency = s.concurrency ∧
    (cancelJob s id t).1.nextId = s.nextId := by
  unfold cancelJob
  cases lookupJob s id with
  | none => simp
  | some j => by_cases hj : j.status = .pending <;> simp [hj]

theorem cancelJob_queue_sublist (s : QueueState) (id t : Nat) :
    (cancelJob s id t).1.queue.Sublist s.queue := by
  unfold cancelJob
  cases lookupJob s id with
  | none => simp
  | some j =>
      by_cases hj : j.status = .pending <;> simp [hj]
      exact List.erase_sublist id s.queue

/-- C6: in every reachable scheduler state, the number of in-flight jobs
never exceeds the configured concurrency limit: a queued job is dispatched
only under the guard `activeJobs < concurrency`, dispatch increments the
counter and the terminal transition (success or failure, via `finally`)
decrements it exactly once. -/
theorem activeJobs_bounded (c : Nat) (s : QueueState) (h : Reachable c s) :
    s.activeJobs ≤ s.concurrency := by
  induction h with
  | refl => simp [initState]
  | tail hab hbc ih =>
      rename_i sb _
      cases hbc with
      | add t => simpa [addJobState] using ih
      | dispatch id rest t hlt hq =>
          simp only [dispatchState]
          omega
      | finish id t o =>
          simp only [finishState]
          omega
      | cancel id t =>
          have hf := cancelJob_fields sb id t
          omega

/-- C6 (witness): a state reached by one submission and one dispatch
satisfies the bound. -/
theorem activeJobs_bounded_witness :
    (dispatchState (addJobState (initState 2) 7) [] 0 8).activeJobs ≤
      (dispatchState (addJobState (initState 2) 7) [] 0 8).concurrency :=
  activeJobs_bounded 2 _
    (Relation.ReflTransGen.tail
      (Relation.ReflTransGen.tail Relation.ReflTransGen.refl
        (Step.add (initState 2) 7))
      (Step.dispatch (addJobState (initState 2) 7) 0 [] 8
        (by decide) (by decide)))

theorem queue_sorted_inv (c : Nat) (s : QueueState) (h : Reachable c s) :
    s.queue.Pairwise (· < ·) ∧ ∀ x ∈ s.queue, x < s.nextId := by
  induction h with
  | refl => simp [initState]
  | tail hab hbc ih =>
      rename_i sb _
      obtain ⟨ihp, ihb⟩ := ih
      cases hbc with
      | add t =>
          constructor
          · simp only [addJobState]
            rw [List.pairwise_append]
            refine ⟨ihp, List.pairwise_singleton _ _, ?_⟩
            intro x hx y hy
            rw [List.mem_singleton] at hy
            subst hy
            exact ihb x hx
          · intro x hx
            simp only [addJobState, List.mem_append, List.mem_singleton]
              at hx
            simp only [addJobState]
            rcases hx with hx | rfl
            · exact Nat.lt_succ_of_lt (ihb x hx)
            · exact Nat.lt_succ_self _
      | dispatch id rest t hlt hq =>
          rw [hq] at ihp
          constructor
          · exact (List.pairwise_cons.mp ihp).2
          · intro x hx
            simp only [dispatchState] at hx ⊢
            exact ihb x (by rw [hq]; exact List.mem_cons_of_mem id hx)
      | finish id t o => exact ⟨ihp, ihb⟩
      | cancel id t =>
          constructor
          · exact List.Pairwise.sublist (cancelJob_queue_sublist sb id t) ihp
          · intro x hx
            have hf := (cancelJob_fields sb id t).2.2
            rw [hf]
            exact ihb x ((cancelJob_queue_sublist sb id t).subset hx)

/-- C7: strict FIFO dispatch.  Job ids are assigned in submission order, so
in every reachable state (including states produced by cancelling jobs out
of the middle of the queue) the pending queue is sorted by submission
order, and the job `dispatch` pops — the head — is the earliest-submitted
pending job: every job still pending was submitted no earlier.  Hence a
job A submitted before a simultaneously pending job B is dispatched no
later than B. -/
theorem fifo_dispatch_order (c : Nat) (s : QueueState) (h : Reachable c s)
    (b : Nat) (rest : List Nat) (hq : s.queue = b :: rest) :
    ∀ a ∈ s.queue, b ≤ a := by
  obtain ⟨hp, _⟩ := queue_sorted_inv c s h
  rw [hq] at hp ⊢
  intro a ha
  rcases List.mem_cons.mp ha with rfl | ha2
  · exact Nat.le_refl a
  · exact Nat.le_of_lt ((List.pairwise_cons.mp hp).1 a ha2)

/-- C7 (witness): after three submissions and one dispatch the queue is
`[1, 2]`; job 2 is pending there and the head 1 was submitted no later. -/
theorem fifo_dispatch_order_witness :
    2 ∈ (dispatchState
        (addJobState (addJobState (addJobState (initState 2) 7) 8) 9)
        [1, 2] 0 10).queue ∧ 1 ≤ 2 :=
  ⟨by decide,
    fifo_dispatch_order 2 _
      (Relation.ReflTransGen.tail
        (Relation.ReflTransGen.tail
          (Relation.ReflTransGen.tail
            (Relation.ReflTransGen.tail Relation.ReflTransGen.refl
              (Step.add (initState 2) 7))
            (Step.add (addJobState (initState 2) 7) 8))
          (Step.add (addJobState (addJobState (initState 2) 7) 8) 9))
        (Step.dispatch
          (addJobState (addJobState (addJobState (initState 2) 7) 8) 9)
          0 [1, 2] 10 (by decide) (by decide)))
      1 [2] (by decide) 2 (by decide)⟩

theorem find_setJob (id : Nat) (jn : Job) :
    ∀ jobs : List (Nat × Job),
      (jobs.find? (fun p => p.1 == id)).isSome = true →
      (setJob jobs id jn).find? (fun p => p.1 == id) = some (id, jn)
  | [], h => by simp at h
  | (k, jv) :: rest, h => by
      by_cases hp : k = id
      · subst hp
        have hmap : setJob ((k, jv) :: rest) k jn = (k, jn) :: setJob rest k jn := by
          simp [setJob]
        rw [hmap, List.find?_cons_of_pos _ (by simp)]
      · have h2 : (rest.find? (fun q => q.1 == id)).isSome = true := by
          rwa [List.find?_cons_of_neg _ (by simp [hp])] at h
        have hmap : setJob ((k, jv) :: rest) id jn = (k, jv) :: setJob rest id jn := by
          simp [setJob, hp]
        rw [hmap, List.find?_cons_of_neg _ (by simp [hp])]
        exact find_setJob id jn rest h2

/-- C9: cancellation of a `pending` job succeeds — the job is removed from
the queue, its status becomes `cancelled` and `completedAt` is set — while
cancellation of a job in any other state (`processing` or terminal) is
rejected with `false` and leaves the whole state untouched.  The `Nodup`
hypothesis states that job ids in the queue are unique, as `uuidv4` ids
are; it holds in every reachable state since the queue is sorted. -/
theorem cancel_pending_spec (s : QueueState) (id t : Nat) (j : Job)
    (hl : lookupJob s id = some j) (hnd : s.queue.Nodup) :
    (j.status = .pending →
      (cancelJob s id t).2 = true ∧
      lookupJob (cancelJob s id t).1 id = some (cancelRecord j t) ∧
      (cancelRecord j t).status = .cancelled ∧
      (cancelRecord j t).completedAt = some t ∧
      id ∉ (cancelJob s id t).1.queue) ∧
    (j.status ≠ .pending → cancelJob s id t = (s, false)) := by
  constructor
  · intro hp
    have hsome : (s.jobs.find? (fun p => p.1 == id)).isSome = true := by
      unfold lookupJob at hl
      rcases hf : s.jobs.find? (fun p => p.1 == id) with _ | q
      · rw [hf] at hl; simp at hl
      · rw [hf]; rfl
    refine ⟨?_, ?_, rfl, rfl, ?_⟩
    · unfold cancelJob
      rw [hl]
      simp [hp]
    · unfold cancelJob
      rw [hl]
      simp only [hp, if_true, reduceIte]
      unfold lookupJob
      simp only
      rw [find_setJob id (cancelRecord j t) s.jobs hsome]
      rfl
    · unfold cancelJob
      rw [hl]
      simp only [hp, if_true, reduceIte]
      exact hnd.not_mem_erase
  · intro hnp
    unfold cancelJob
    rw [hl]
    simp [hnp]

/-- A queue holding exactly one freshly submitted (pending) job. -/
def oneJobState : QueueState := addJobState (initState 2) 3

/-- C9 (witness): cancelling the single pending job of `oneJobState`
succeeds, marks it cancelled with `completedAt` set, and removes it from
the queue. -/
theorem cancel_pending_spec_witness :
    (cancelJob oneJobState 0 9).2 = true ∧
    lookupJob (cancelJob oneJobState 0 9).1 0 = some (cancelRecord (mkJob 3) 9) ∧
    (cancelRecord (mkJob 3) 9).status = .cancelled ∧
    (cancelRecord (mkJob 3) 9).completedAt = some 9 ∧
    0 ∉ (cancelJob oneJobState 0 9).1.queue :=
  (cancel_pending_spec oneJobState 0 9 (mkJob 3) (by decide) (by decide)).1 rfl
